import Mathlib

/-!
Shallow embedding of `extlinks/programs/views.py` (the `ProgramDetailView`
statistics pipeline) and verification of its specification.

The view reads three pre-aggregated tables (`LinkAggregate`, `UserAggregate`,
`PageProjectAggregate`), resolves an optional date-range filter from form data
into a Django `Q` predicate combined with a mandatory organisation-membership
predicate, and fills a context dictionary with chart series, summary totals and
three top-5 rankings.  Database tables are embedded as lists of rows, `Q`
objects as a small predicate datatype, querysets as list filtering, and the
Django ORM aggregate / grouping / ordering operations as explicit list
functions.  Paths on which the Python raises (an uncaught `DoesNotExist`, an
unbound local variable) are embedded as `Except.error`.
-/

namespace Extlinks

/-- Calendar date (year, month, day).  Python `datetime.date` values compare
lexicographically on these components. -/
structure Date where
  year : Nat
  month : Nat
  day : Nat
deriving DecidableEq, Repr

/-- Python date comparison `a <= b`: lexicographic on (year, month, day). -/
def Date.le (a b : Date) : Bool :=
  decide (a.year < b.year ∨ (a.year = b.year ∧
    (a.month < b.month ∨ (a.month = b.month ∧ a.day ≤ b.day))))

/-- Python date comparison `a < b`.  Since the lexicographic order is total,
`a < b` is the negation of `b <= a`. -/
def Date.lt (a b : Date) : Bool :=
  !(Date.le b a)

/-- Django `Q` objects as this view builds them: organisation membership,
lower / upper bounds on `full_date`, and conjunction (`&`). -/
inductive Q where
  | organisation_in (orgs : List Nat)
  | full_date_gte (d : Date)
  | full_date_lte (d : Date)
  | qand (a b : Q)
deriving DecidableEq, Repr

/-- Whether a row with the given organisation pk and `full_date` satisfies a
`Q` predicate. -/
def Q.matches (q : Q) (organisation : Nat) (full_date : Date) : Bool :=
  match q with
  | .organisation_in orgs => orgs.contains organisation
  | .full_date_gte d => Date.le d full_date
  | .full_date_lte d => Date.le full_date d
  | .qand a b => a.matches organisation full_date && b.matches organisation full_date

/-- Modelled from the spec: `LinkAggregate` rows live in
`extlinks.aggregates.models`, outside the source slice.  Per the spec they are
keyed by (organisation, year, month, day) and carry `total_links_added` /
`total_links_removed` counts.  `full_date` is the date assembled from the date
parts; the organisation's name (reached in the source through the
`organisation__name` join) is carried denormalised on the row. -/
structure LinkAggregateRow where
  organisation : Nat
  organisation_name : String
  year : Nat
  month : Nat
  day : Nat
  total_links_added : Nat
  total_links_removed : Nat
deriving DecidableEq, Repr

/-- The `full_date` column of a `LinkAggregate` row. -/
def LinkAggregateRow.full_date (r : LinkAggregateRow) : Date :=
  ⟨r.year, r.month, r.day⟩

/-- Modelled from the spec: `UserAggregate` rows (outside the source slice) are
keyed by (organisation, username, date parts) with the same add/remove
counts. -/
structure UserAggregateRow where
  organisation : Nat
  username : String
  year : Nat
  month : Nat
  day : Nat
  total_links_added : Nat
  total_links_removed : Nat
deriving DecidableEq, Repr

/-- The `full_date` column of a `UserAggregate` row. -/
def UserAggregateRow.full_date (r : UserAggregateRow) : Date :=
  ⟨r.year, r.month, r.day⟩

/-- Modelled from the spec: `PageProjectAggregate` rows (outside the source
slice) are keyed by (organisation, project_name, date parts) with the same
add/remove counts. -/
structure PageProjectAggregateRow where
  organisation : Nat
  project_name : String
  year : Nat
  month : Nat
  day : Nat
  total_links_added : Nat
  total_links_removed : Nat
deriving DecidableEq, Repr

/-- The `full_date` column of a `PageProjectAggregate` row. -/
def PageProjectAggregateRow.full_date (r : PageProjectAggregateRow) : Date :=
  ⟨r.year, r.month, r.day⟩

/-- The database state the view reads: the three aggregate tables. -/
structure Database where
  linkaggregates : List LinkAggregateRow
  useraggregates : List UserAggregateRow
  pageprojectaggregates : List PageProjectAggregateRow
deriving DecidableEq, Repr

/-- `LinkAggregate.objects.filter(q)`. -/
def filterLinks (db : Database) (q : Q) : List LinkAggregateRow :=
  db.linkaggregates.filter (fun r => q.matches r.organisation r.full_date)

/-- `UserAggregate.objects.filter(q)`. -/
def filterUsers (db : Database) (q : Q) : List UserAggregateRow :=
  db.useraggregates.filter (fun r => q.matches r.organisation r.full_date)

/-- `PageProjectAggregate.objects.filter(q)`. -/
def filterProjects (db : Database) (q : Q) : List PageProjectAggregateRow :=
  db.pageprojectaggregates.filter (fun r => q.matches r.organisation r.full_date)

/-- Sum of a numeric column over a list of rows. -/
def sumBy (f : α → Nat) (l : List α) : Nat :=
  l.foldl (fun acc x => acc + f x) 0

/-- `Sum(column)` inside a Django `aggregate(...)` call: SQL `SUM` is `NULL`
(here `none`) when no rows match. -/
def sumAggregate (f : α → Nat) (l : List α) : Option Nat :=
  if l.isEmpty then none else some (sumBy f l)

/-- `Sum(a) - Sum(b)` inside a Django `aggregate(...)` call: `NULL - NULL` is
`NULL`, so the difference is `none` exactly when no rows match. -/
def sumDiffAggregate (fa fr : α → Nat) (l : List α) : Option Int :=
  if l.isEmpty then none else some ((sumBy fa l : Int) - (sumBy fr l : Int))

/-- `Count(column, distinct=True)` inside a Django `aggregate(...)` call:
the number of distinct values of the column, 0 when no rows match. -/
def countDistinct [DecidableEq κ] (f : α → κ) (l : List α) : Nat :=
  ((l.map f).dedup).length

/-- `.earliest("full_date").full_date`: the minimal `full_date` of the
queryset, `none` when the queryset is empty (Django raises
`DoesNotExist` there). -/
def earliestFullDate (l : List LinkAggregateRow) : Option Date :=
  l.foldl
    (fun acc r =>
      match acc with
      | none => some r.full_date
      | some d => if Date.lt r.full_date d then some r.full_date else some d)
    none

/-- The distinct values of a grouping key over a list of rows, in order of
first occurrence: the group keys produced by `.values(...).annotate(...)`. -/
def distinctKeys [DecidableEq κ] (key : α → κ) (l : List α) : List κ :=
  l.foldl (fun ks r => if key r ∈ ks then ks else ks ++ [key r]) []

/-- One output row of a `.values(key).annotate(links_added=Sum(...),
links_removed=Sum(...), links_diff=Sum(...) - Sum(...))` query. -/
structure TotalsRow (κ : Type) where
  key : κ
  links_added : Nat
  links_removed : Nat
  links_diff : Int
deriving DecidableEq, Repr

/-- `.values(key).annotate(links_added=Sum(added), links_removed=Sum(removed),
links_diff=Sum(added) - Sum(removed))`: group rows by the key and aggregate
each group. -/
def aggregateBy [DecidableEq κ] (key : α → κ) (fa fr : α → Nat) (l : List α) :
    List (TotalsRow κ) :=
  (distinctKeys key l).map (fun k =>
    let g := l.filter (fun r => decide (key r = k))
    ⟨k, sumBy fa g, sumBy fr g, (sumBy fa g : Int) - (sumBy fr g : Int)⟩)

/-- One group of the chart query
`.values("month", "year").annotate(net_change=Sum(added) - Sum(removed))`. -/
structure ChartGroup where
  month : Nat
  year : Nat
  net_change : Int
deriving DecidableEq, Repr

/-- The chart grouping query: group `LinkAggregate` rows by (month, year) and
compute `net_change = Sum(total_links_added) - Sum(total_links_removed)` per
group. -/
def values_month_year (l : List LinkAggregateRow) : List ChartGroup :=
  (distinctKeys (fun r => (r.month, r.year)) l).map (fun k =>
    let g := l.filter (fun r => decide ((r.month, r.year) = k))
    ⟨k.1, k.2,
      (sumBy (fun r => r.total_links_added) g : Int) -
        (sumBy (fun r => r.total_links_removed) g : Int)⟩)

/-- The ordering `.order_by("-links_diff", "-links_added", "-links_removed")`:
`links_diff` descending, then `links_added` descending, then `links_removed`
descending. -/
def TotalsOrder (a b : TotalsRow κ) : Prop :=
  b.links_diff < a.links_diff ∨
    (a.links_diff = b.links_diff ∧
      (b.links_added < a.links_added ∨
        (a.links_added = b.links_added ∧ b.links_removed ≤ a.links_removed)))

instance instDecTotalsOrder : DecidableRel (@TotalsOrder κ) := fun a b =>
  decidable_of_iff
    (b.links_diff < a.links_diff ∨
      (a.links_diff = b.links_diff ∧
        (b.links_added < a.links_added ∨
          (a.links_added = b.links_added ∧ b.links_removed ≤ a.links_removed))))
    Iff.rfl

/-- `form.cleaned_data` restricted to the two keys this view reads.  For each
field, `none` means the key is absent from the dict, `some none` means the key
maps to Python `None` (falsy), and `some (some d)` means the key maps to the
date `d` (dates are always truthy). -/
structure FormData where
  start_date : Option (Option Date)
  end_date : Option (Option Date)
deriving DecidableEq, Repr

/-- Python truthiness of the `form_data` dict: a dict is truthy iff it is
non-empty, i.e. at least one key is present. -/
def FormData.truthy (fd : FormData) : Bool :=
  fd.start_date.isSome || fd.end_date.isSome

/-- `ProgramDetailView._build_queryset_filters`.  Mirrors the Python: the
date filters are set only when the corresponding key is present with a truthy
value; when both are set an inverted range (`start_date >= end_date`) falls
back to the organisation-only predicate.  The final branch of the Python
(`if start_date_filter is None and end_date:`) reads the local variable
`end_date`, which is unbound when the key was absent from `form_data`; that
path is embedded as an error. -/
def _build_queryset_filters (form_data : FormData) (organisations : List Nat) :
    Except String Q :=
  -- The aggregates queries will always be filtered by organisation
  let organisation_filter := Q.organisation_in organisations
  -- start_date_filter / end_date_filter record the date bound when the key is
  -- present and truthy; the Q objects built from them appear at the returns
  let start_date_filter : Option Date :=
    match form_data.start_date with
    | some (some start_date) => some start_date
    | _ => none
  let end_date_filter : Option Date :=
    match form_data.end_date with
    | some (some end_date) => some end_date
    | _ => none
  match start_date_filter, end_date_filter with
  | some start_date, some end_date =>
    -- If the start date is greater than the end date, it won't filter by date
    if Date.le end_date start_date then
      Except.ok organisation_filter
    else
      Except.ok (Q.qand (Q.qand organisation_filter (Q.full_date_gte start_date))
        (Q.full_date_lte end_date))
  | some start_date, none =>
    Except.ok (Q.qand organisation_filter (Q.full_date_gte start_date))
  | none, _ =>
    match form_data.end_date with
    | none => Except.error "UnboundLocalError: end_date"
    | some none => Except.ok organisation_filter
    | some (some end_date) =>
      Except.ok (Q.qand organisation_filter (Q.full_date_lte end_date))

/-- The two chart series `eventstream_dates` / `eventstream_net_change`. -/
structure ChartContext where
  eventstream_dates : List String
  eventstream_net_change : List Int
deriving DecidableEq, Repr

/-- The body of `_fill_chart_context` once `earliest_link_date` has been
resolved: the grouped query over rows matching
`queryset_filter & Q(full_date__gte=earliest_link_date)`, then the Python
`for` loop appending to the two parallel lists. -/
def chartFrom (db : Database) (queryset_filter : Q) (earliest_link_date : Date) :
    ChartContext :=
  let links_aggregated_date := values_month_year
    (db.linkaggregates.filter (fun r =>
      (Q.qand queryset_filter (Q.full_date_gte earliest_link_date)).matches
        r.organisation r.full_date))
  let acc := links_aggregated_date.foldl
    (fun (acc : List String × List Int) link =>
      (acc.1 ++ [toString link.year ++ "-" ++ toString link.month],
       acc.2 ++ [link.net_change]))
    ([], [])
  { eventstream_dates := acc.1, eventstream_net_change := acc.2 }

/-- `ProgramDetailView._fill_chart_context`.  The `try` block looks up the
earliest `full_date` under `queryset_filter`; on `DoesNotExist` the `except`
block retries against the organisation-only queryset, and a failure of that
second lookup is an uncaught `DoesNotExist` (embedded as an error). -/
def _fill_chart_context (db : Database) (organisations : List Nat)
    (queryset_filter : Q) : Except String ChartContext :=
  match earliestFullDate (filterLinks db queryset_filter) with
  | some earliest_link_date =>
    Except.ok (chartFrom db queryset_filter earliest_link_date)
  | none =>
    match earliestFullDate
        (db.linkaggregates.filter (fun r => organisations.contains r.organisation)) with
    | some earliest_link_date =>
      Except.ok (chartFrom db queryset_filter earliest_link_date)
    | none => Except.error "LinkAggregate.DoesNotExist"

/-- The five scalar values of the Statistics table. -/
structure StatisticsContext where
  total_added : Option Nat
  total_removed : Option Nat
  total_diff : Option Int
  total_editors : Nat
  total_projects : Nat
deriving DecidableEq, Repr

/-- `ProgramDetailView._fill_statistics_table_context`: the `aggregate` over
`LinkAggregate` (sums and their difference) and the two distinct counts over
`UserAggregate` and `PageProjectAggregate`. -/
def _fill_statistics_table_context (db : Database) (queryset_filter : Q) :
    StatisticsContext where
  total_added := sumAggregate (fun r => r.total_links_added) (filterLinks db queryset_filter)
  total_removed := sumAggregate (fun r => r.total_links_removed) (filterLinks db queryset_filter)
  total_diff := sumDiffAggregate (fun r => r.total_links_added)
    (fun r => r.total_links_removed) (filterLinks db queryset_filter)
  total_editors := countDistinct (fun r => r.username) (filterUsers db queryset_filter)
  total_projects := countDistinct (fun r => r.project_name) (filterProjects db queryset_filter)

/-- The three top-5 tables. -/
structure TotalsContext where
  top_organisations : List (TotalsRow (Nat × String))
  top_projects : List (TotalsRow String)
  top_users : List (TotalsRow String)
deriving DecidableEq, Repr

/-- `ProgramDetailView._fill_totals_tables`: each table filters its model by
`queryset_filter`, groups (`.values`), aggregates sums and their difference,
orders by `-links_diff, -links_added, -links_removed` and keeps the first 5
rows. -/
def _fill_totals_tables (db : Database) (queryset_filter : Q) : TotalsContext where
  top_organisations :=
    (List.insertionSort TotalsOrder
      (aggregateBy (fun r => (r.organisation, r.organisation_name))
        (fun r => r.total_links_added) (fun r => r.total_links_removed)
        (filterLinks db queryset_filter))).take 5
  top_projects :=
    (List.insertionSort TotalsOrder
      (aggregateBy (fun r => r.project_name)
        (fun r => r.total_links_added) (fun r => r.total_links_removed)
        (filterProjects db queryset_filter))).take 5
  top_users :=
    (List.insertionSort TotalsOrder
      (aggregateBy (fun r => r.username)
        (fun r => r.total_links_added) (fun r => r.total_links_removed)
        (filterUsers db queryset_filter))).take 5

/-- Everything `_build_context_dictionary` adds to the context. -/
structure ProgramContext where
  eventstream_dates : List String
  eventstream_net_change : List Int
  total_added : Option Nat
  total_removed : Option Nat
  total_diff : Option Int
  total_editors : Nat
  total_projects : Nat
  top_organisations : List (TotalsRow (Nat × String))
  top_projects : List (TotalsRow String)
  top_users : List (TotalsRow String)
deriving DecidableEq, Repr

/-- `ProgramDetailView._build_context_dictionary`: resolve the queryset filter
(the organisation-only predicate when `form_data` is `None` or an empty dict),
then fill the chart, statistics and totals context.  An exception on any step
propagates. -/
def _build_context_dictionary (db : Database) (organisations : List Nat)
    (form_data : Option FormData) : Except String ProgramContext :=
  let queryset_filter_result : Except String Q :=
    match form_data with
    | some fd =>
      if fd.truthy then _build_queryset_filters fd organisations
      else Except.ok (Q.organisation_in organisations)
    | none => Except.ok (Q.organisation_in organisations)
  match queryset_filter_result with
  | Except.error e => Except.error e
  | Except.ok queryset_filter =>
    match _fill_chart_context db organisations queryset_filter with
    | Except.error e => Except.error e
    | Except.ok chart =>
      let stats := _fill_statistics_table_context db queryset_filter
      let totals := _fill_totals_tables db queryset_filter
      Except.ok
        { eventstream_dates := chart.eventstream_dates
          eventstream_net_change := chart.eventstream_net_change
          total_added := stats.total_added
          total_removed := stats.total_removed
          total_diff := stats.total_diff
          total_editors := stats.total_editors
          total_projects := stats.total_projects
          top_organisations := totals.top_organisations
          top_projects := totals.top_projects
          top_users := totals.top_users }

/-- The chart algorithm as the specification states it: the earliest
`full_date` among `LinkAggregate` rows matching the predicate, falling back to
the earliest over the organisation-only (date-unfiltered) set when no row
matches; then all rows matching (predicate AND `full_date >= earliest`),
grouped by (month, year) with `net_change = sum added - sum removed`, emitted
as two parallel sequences of "year-month" labels and net-change values.
`none` when even the fallback set has no row. -/
def chartSpec (db : Database) (organisations : List Nat) (queryset_filter : Q) :
    Option ChartContext :=
  let earliest : Option Date :=
    match earliestFullDate (filterLinks db queryset_filter) with
    | some d => some d
    | none =>
      earliestFullDate
        (db.linkaggregates.filter (fun r => organisations.contains r.organisation))
  earliest.map (fun d =>
    let groups := values_month_year (db.linkaggregates.filter (fun r =>
      queryset_filter.matches r.organisation r.full_date && Date.le d r.full_date))
    { eventstream_dates := groups.map (fun g => toString g.year ++ "-" ++ toString g.month)
      eventstream_net_change := groups.map (fun g => g.net_change) })

instance : IsTrans (TotalsRow κ) TotalsOrder where
  trans a b c hab hbc := by
    unfold TotalsOrder at hab hbc ⊢
    omega

instance : IsTotal (TotalsRow κ) TotalsOrder where
  total a b := by
    unfold TotalsOrder
    omega

/-- Filtering by a conjunction yields nothing when filtering by the first
conjunct already yields nothing. -/
theorem filter_and_nil (l : List α) (p q : α → Bool) (h : l.filter p = []) :
    l.filter (fun x => p x && q x) = [] := by
  induction l with
  | nil => rfl
  | cons x xs ih =>
    by_cases hx : p x
    · simp [List.filter_cons, hx] at h
    · simp only [List.filter_cons, hx, Bool.false_and, if_neg] at h ⊢
      exact ih h

/-- The accumulator of `earliestFullDate` stays `some` once it is `some`. -/
theorem earliestFullDate_foldl_isSome (l : List LinkAggregateRow) (d : Date) :
    (l.foldl
      (fun acc r =>
        match acc with
        | none => some r.full_date
        | some d => if Date.lt r.full_date d then some r.full_date else some d)
      (some d)).isSome = true := by
  induction l generalizing d with
  | nil => rfl
  | cons x xs ih =>
    simp only [List.foldl_cons]
    split
    · exact ih _
    · exact ih _

/-- `.earliest("full_date")` succeeds on every non-empty queryset. -/
theorem earliestFullDate_isSome_of_ne_nil (l : List LinkAggregateRow) (h : l ≠ []) :
    (earliestFullDate l).isSome = true := by
  cases l with
  | nil => exact absurd rfl h
  | cons x xs => exact earliestFullDate_foldl_isSome xs x.full_date

/-- The Python `for` loop of `_fill_chart_context`, which appends to the two
parallel lists, computes the two `map`s. -/
theorem chart_foldl_eq_map (l : List ChartGroup) (a : List String) (b : List Int) :
    l.foldl
      (fun (acc : List String × List Int) link =>
        (acc.1 ++ [toString link.year ++ "-" ++ toString link.month],
         acc.2 ++ [link.net_change]))
      (a, b) =
      (a ++ l.map (fun g => toString g.year ++ "-" ++ toString g.month),
       b ++ l.map (fun g => g.net_change)) := by
  induction l generalizing a b with
  | nil => simp
  | cons x xs ih => simp [ih]

/-- `sumBy` is the sum of the mapped column. -/
theorem sumBy_foldl_eq (f : α → Nat) (l : List α) (acc : Nat) :
    l.foldl (fun a x => a + f x) acc = acc + (l.map f).sum := by
  induction l generalizing acc with
  | nil => simp
  | cons x xs ih => simp [ih, Nat.add_assoc]

/-- `sumBy` is the sum of the mapped column. -/
theorem sumBy_eq_sum_map (f : α → Nat) (l : List α) :
    sumBy f l = (l.map f).sum := by
  simpa using sumBy_foldl_eq f l 0

/-- `chartFrom` written with the grouped rows mapped to the two series. -/
theorem chartFrom_eq (db : Database) (queryset_filter : Q) (d : Date) :
    chartFrom db queryset_filter d =
      { eventstream_dates :=
          (values_month_year (db.linkaggregates.filter (fun r =>
            queryset_filter.matches r.organisation r.full_date && Date.le d r.full_date))).map
            (fun g => toString g.year ++ "-" ++ toString g.month)
        eventstream_net_change :=
          (values_month_year (db.linkaggregates.filter (fun r =>
            queryset_filter.matches r.organisation r.full_date && Date.le d r.full_date))).map
            (fun g => g.net_change) } := by
  unfold chartFrom
  simp only [Q.matches]
  rw [chart_foldl_eq_map]
  simp

/-- Filtering any of the three tables by `Q(organisation__in=[])` yields no
rows: the membership test against an empty list is false. -/
theorem filterLinks_org_in_nil (db : Database) :
    filterLinks db (Q.organisation_in []) = [] := by
  simp [filterLinks, Q.matches]

/-- `UserAggregate` analogue of `filterLinks_org_in_nil`. -/
theorem filterUsers_org_in_nil (db : Database) :
    filterUsers db (Q.organisation_in []) = [] := by
  simp [filterUsers, Q.matches]

/-- `PageProjectAggregate` analogue of `filterLinks_org_in_nil`. -/
theorem filterProjects_org_in_nil (db : Database) :
    filterProjects db (Q.organisation_in []) = [] := by
  simp [filterProjects, Q.matches]

/-- C1: for form input with both dates present and `start_date >= end_date`,
`_build_queryset_filters` returns exactly the organisation-only predicate
`Q(organisation__in=organisations)`, and consequently the whole detail-view
context (chart series, summary totals, top-5 tables) equals the context
computed with no date filter for the same organisation set. -/
theorem inverted_range_gives_org_only_context (db : Database)
    (organisations : List Nat) (s e : Date) (h : Date.le e s = true) :
    _build_queryset_filters ⟨some (some s), some (some e)⟩ organisations =
      Except.ok (Q.organisation_in organisations) ∧
    _build_context_dictionary db organisations (some ⟨some (some s), some (some e)⟩) =
      _build_context_dictionary db organisations none := by
  have hq : _build_queryset_filters ⟨some (some s), some (some e)⟩ organisations =
      Except.ok (Q.organisation_in organisations) := by
    simp [_build_queryset_filters, h]
  refine ⟨hq, ?_⟩
  simp [_build_context_dictionary, FormData.truthy, hq]

/-- Witness for C1 at the spec's scenario dates 2024-02-01 / 2024-01-01. -/
theorem inverted_range_gives_org_only_context_witness :
    _build_queryset_filters ⟨some (some ⟨2024, 2, 1⟩), some (some ⟨2024, 1, 1⟩)⟩ [1] =
      Except.ok (Q.organisation_in [1]) ∧
    _build_context_dictionary ⟨[⟨1, "A", 2024, 1, 15, 100, 10⟩], [], []⟩ [1]
        (some ⟨some (some ⟨2024, 2, 1⟩), some (some ⟨2024, 1, 1⟩)⟩) =
      _build_context_dictionary ⟨[⟨1, "A", 2024, 1, 15, 100, 10⟩], [], []⟩ [1] none :=
  inverted_range_gives_org_only_context ⟨[⟨1, "A", 2024, 1, 15, 100, 10⟩], [], []⟩ [1]
    ⟨2024, 2, 1⟩ ⟨2024, 1, 1⟩ (by decide)

/-- C3 counterexample: on the dict holding only `start_date = None`, the final
branch of `_build_queryset_filters` reads the never-assigned local `end_date`
and raises `UnboundLocalError`, so the function does not return a predicate on
every form_data dictionary. -/
theorem build_queryset_filters_unbound_local_cex :
    _build_queryset_filters ⟨some none, none⟩ [1] =
      Except.error "UnboundLocalError: end_date" := rfl

/-- C3 amended: whenever the `end_date` key is present in form_data, or
`start_date` is present with a truthy value, `_build_queryset_filters` raises
no exception and returns a predicate; only the inputs with the `end_date` key
absent and no truthy `start_date` hit the unbound local. -/
theorem build_queryset_filters_no_exception (fd : FormData) (organisations : List Nat)
    (h : fd.end_date.isSome = true ∨ (∃ d, fd.start_date = some (some d))) :
    ∃ q, _build_queryset_filters fd organisations = Except.ok q := by
  obtain ⟨sd, ed⟩ := fd
  rcases sd with _ | (_ | s) <;> rcases ed with _ | (_ | e)
  · simp at h
  · exact ⟨Q.organisation_in organisations, rfl⟩
  · exact ⟨Q.qand (Q.organisation_in organisations) (Q.full_date_lte e), rfl⟩
  · simp at h
  · exact ⟨Q.organisation_in organisations, rfl⟩
  · exact ⟨Q.qand (Q.organisation_in organisations) (Q.full_date_lte e), rfl⟩
  · exact ⟨Q.qand (Q.organisation_in organisations) (Q.full_date_gte s), rfl⟩
  · exact ⟨Q.qand (Q.organisation_in organisations) (Q.full_date_gte s), rfl⟩
  · by_cases hle : Date.le e s = true
    · exact ⟨Q.organisation_in organisations, by simp [_build_queryset_filters, hle]⟩
    · exact ⟨Q.qand (Q.qand (Q.organisation_in organisations) (Q.full_date_gte s))
        (Q.full_date_lte e), by simp [_build_queryset_filters, hle]⟩

/-- Witness for C3's amended statement at a dict holding only a falsy
end_date. -/
theorem build_queryset_filters_no_exception_witness :
    ∃ q, _build_queryset_filters ⟨none, some none⟩ [] = Except.ok q :=
  build_queryset_filters_no_exception ⟨none, some none⟩ [] (Or.inl (by decide))

/-- C6: for both dates present with `start_date < end_date`, the returned
predicate is the conjunction of the organisation-membership predicate with
`full_date >= start_date` and `full_date <= end_date`, and it accepts exactly
the rows of a member organisation whose date lies in the inclusive range. -/
theorem valid_range_predicate_inclusive (organisations : List Nat) (s e : Date)
    (h : Date.lt s e = true) :
    _build_queryset_filters ⟨some (some s), some (some e)⟩ organisations =
      Except.ok (Q.qand (Q.qand (Q.organisation_in organisations) (Q.full_date_gte s))
        (Q.full_date_lte e)) ∧
    ∀ org fd,
      (Q.qand (Q.qand (Q.organisation_in organisations) (Q.full_date_gte s))
          (Q.full_date_lte e)).matches org fd =
        (organisations.contains org && Date.le s fd && Date.le fd e) := by
  have hle : Date.le e s = false := by
    simpa [Date.lt] using h
  exact ⟨by simp [_build_queryset_filters, hle], fun org fd => rfl⟩

/-- Witness for C6 at 2024-01-01 < 2024-02-01. -/
theorem valid_range_predicate_inclusive_witness :
    _build_queryset_filters ⟨some (some ⟨2024, 1, 1⟩), some (some ⟨2024, 2, 1⟩)⟩ [1] =
      Except.ok (Q.qand (Q.qand (Q.organisation_in [1]) (Q.full_date_gte ⟨2024, 1, 1⟩))
        (Q.full_date_lte ⟨2024, 2, 1⟩)) :=
  (valid_range_predicate_inclusive [1] ⟨2024, 1, 1⟩ ⟨2024, 2, 1⟩ (by decide)).1

/-- C7: with exactly one truthy date bound the predicate applies only that
bound.  A truthy start_date (end key absent, or present and falsy) yields
organisation AND `full_date >= start_date`; a truthy end_date with no truthy
start_date yields organisation AND `full_date <= end_date` — the branch tests
the raw `end_date` value, so a present-but-falsy start_date key changes
nothing. -/
theorem single_bound_predicate (organisations : List Nat) (s e : Date) :
    _build_queryset_filters ⟨some (some s), none⟩ organisations =
      Except.ok (Q.qand (Q.organisation_in organisations) (Q.full_date_gte s)) ∧
    _build_queryset_filters ⟨some (some s), some none⟩ organisations =
      Except.ok (Q.qand (Q.organisation_in organisations) (Q.full_date_gte s)) ∧
    _build_queryset_filters ⟨none, some (some e)⟩ organisations =
      Except.ok (Q.qand (Q.organisation_in organisations) (Q.full_date_lte e)) ∧
    _build_queryset_filters ⟨some none, some (some e)⟩ organisations =
      Except.ok (Q.qand (Q.organisation_in organisations) (Q.full_date_lte e)) :=
  ⟨rfl, rfl, rfl, rfl⟩

/-- C2 counterexample: for an empty organisation set (here over a database
that does hold a `LinkAggregate` row, for an organisation outside the
program), the fallback earliest-date lookup in `_fill_chart_context` also
finds no row and its uncaught `DoesNotExist` propagates, so the detail view
raises instead of returning the all-null context the claim describes. -/
theorem empty_orgs_detail_view_raises_cex :
    _build_context_dictionary ⟨[⟨7, "G", 2024, 1, 15, 3, 1⟩], [], []⟩ [] none =
      Except.error "LinkAggregate.DoesNotExist" := rfl

/-- C2 amended: for an empty organisation set the summary totals are all
null/zero and the three top-5 tables are empty, but both earliest-date
lookups in `_fill_chart_context` fail and the second `DoesNotExist` is
uncaught, so the detail view raises and no chart series is produced. -/
theorem empty_orgs_totals_null_tables_empty_chart_raises (db : Database) :
    _fill_statistics_table_context db (Q.organisation_in []) =
      { total_added := none, total_removed := none, total_diff := none,
        total_editors := 0, total_projects := 0 } ∧
    _fill_totals_tables db (Q.organisation_in []) =
      { top_organisations := [], top_projects := [], top_users := [] } ∧
    _build_context_dictionary db [] none =
      Except.error "LinkAggregate.DoesNotExist" := by
  have hl := filterLinks_org_in_nil db
  have hu := filterUsers_org_in_nil db
  have hp := filterProjects_org_in_nil db
  have hchart : _fill_chart_context db [] (Q.organisation_in []) =
      Except.error "LinkAggregate.DoesNotExist" := by
    unfold _fill_chart_context
    simp [hl, earliestFullDate]
  refine ⟨?_, ?_, ?_⟩
  · simp [_fill_statistics_table_context, hl, hu, hp, sumAggregate, sumDiffAggregate,
      countDistinct]
  · simp [_fill_totals_tables, hl, hu, hp, aggregateBy, distinctKeys]
  · simp [_build_context_dictionary, hchart]

/-- C4: the chart computation succeeds with a given pair of series exactly
when the spec-described algorithm (earliest matching date with
organisation-only fallback, rows matching predicate AND date >= earliest,
grouped by (month, year) with net change, parallel "year-month" labels and
values) produces that pair. -/
theorem fill_chart_context_matches_spec (db : Database) (organisations : List Nat)
    (queryset_filter : Q) (r : ChartContext) :
    _fill_chart_context db organisations queryset_filter = Except.ok r ↔
      chartSpec db organisations queryset_filter = some r := by
  unfold _fill_chart_context chartSpec
  cases h1 : earliestFullDate (filterLinks db queryset_filter) with
  | some d => simp [h1, chartFrom_eq]
  | none =>
    cases h2 : earliestFullDate
        (db.linkaggregates.filter (fun r => organisations.contains r.organisation)) with
    | some d => simp [h1, h2, chartFrom_eq]
    | none => simp [h1, h2]

/-- C5: each of the three rankings of `_fill_totals_tables` has at most 5
entries, is sorted by links_diff descending then links_added descending then
links_removed descending, and is the 5-element truncation of the full sorted
ranking (truncation after sorting). -/
theorem totals_tables_top5_sorted (db : Database) (queryset_filter : Q) :
    ((_fill_totals_tables db queryset_filter).top_organisations.length ≤ 5 ∧
      List.Sorted TotalsOrder (_fill_totals_tables db queryset_filter).top_organisations ∧
      (_fill_totals_tables db queryset_filter).top_organisations =
        (List.insertionSort TotalsOrder
          (aggregateBy (fun r => (r.organisation, r.organisation_name))
            (fun r => r.total_links_added) (fun r => r.total_links_removed)
            (filterLinks db queryset_filter))).take 5) ∧
    ((_fill_totals_tables db queryset_filter).top_projects.length ≤ 5 ∧
      List.Sorted TotalsOrder (_fill_totals_tables db queryset_filter).top_projects ∧
      (_fill_totals_tables db queryset_filter).top_projects =
        (List.insertionSort TotalsOrder
          (aggregateBy (fun r => r.project_name)
            (fun r => r.total_links_added) (fun r => r.total_links_removed)
            (filterProjects db queryset_filter))).take 5) ∧
    ((_fill_totals_tables db queryset_filter).top_users.length ≤ 5 ∧
      List.Sorted TotalsOrder (_fill_totals_tables db queryset_filter).top_users ∧
      (_fill_totals_tables db queryset_filter).top_users =
        (List.insertionSort TotalsOrder
          (aggregateBy (fun r => r.username)
            (fun r => r.total_links_added) (fun r => r.total_links_removed)
            (filterUsers db queryset_filter))).take 5) := by
  refine ⟨⟨?_, ?_, rfl⟩, ⟨?_, ?_, rfl⟩, ⟨?_, ?_, rfl⟩⟩
  · exact List.length_take_le 5 _
  · exact List.Pairwise.sublist (List.take_sublist 5 _)
      (List.sorted_insertionSort TotalsOrder _)
  · exact List.length_take_le 5 _
  · exact List.Pairwise.sublist (List.take_sublist 5 _)
      (List.sorted_insertionSort TotalsOrder _)
  · exact List.length_take_le 5 _
  · exact List.Pairwise.sublist (List.take_sublist 5 _)
      (List.sorted_insertionSort TotalsOrder _)

/-- C8: the five scalars of the statistics table are the sums of the added /
removed columns and their difference over the `LinkAggregate` rows matching
the predicate (null when no row matches), the count of distinct usernames
over the matching `UserAggregate` rows, and the count of distinct project
names over the matching `PageProjectAggregate` rows — with no error on the
empty case. -/
theorem statistics_table_scalars (db : Database) (queryset_filter : Q) :
    (_fill_statistics_table_context db queryset_filter).total_added =
      (if filterLinks db queryset_filter = [] then none
        else some ((filterLinks db queryset_filter).map
          (fun r => r.total_links_added)).sum) ∧
    (_fill_statistics_table_context db queryset_filter).total_removed =
      (if filterLinks db queryset_filter = [] then none
        else some ((filterLinks db queryset_filter).map
          (fun r => r.total_links_removed)).sum) ∧
    (_fill_statistics_table_context db queryset_filter).total_diff =
      (if filterLinks db queryset_filter = [] then none
        else some
          ((((filterLinks db queryset_filter).map
              (fun r => r.total_links_added)).sum : Int) -
            (((filterLinks db queryset_filter).map
              (fun r => r.total_links_removed)).sum : Int))) ∧
    (_fill_statistics_table_context db queryset_filter).total_editors =
      ((filterUsers db queryset_filter).map (fun r => r.username)).toFinset.card ∧
    (_fill_statistics_table_context db queryset_filter).total_projects =
      ((filterProjects db queryset_filter).map (fun r => r.project_name)).toFinset.card := by
  refine ⟨?_, ?_, ?_, ?_, ?_⟩
  · simp [_fill_statistics_table_context, sumAggregate, sumBy_eq_sum_map,
      List.isEmpty_iff]
  · simp [_fill_statistics_table_context, sumAggregate, sumBy_eq_sum_map,
      List.isEmpty_iff]
  · simp [_fill_statistics_table_context, sumDiffAggregate, sumBy_eq_sum_map,
      List.isEmpty_iff, Nat.cast_list_sum, List.map_map, Function.comp_def]
  · simp [_fill_statistics_table_context, countDistinct, List.card_toFinset]
  · simp [_fill_statistics_table_context, countDistinct, List.card_toFinset]

/-- C9: on the two-organisation database A (added=100, removed=10),
B (added=50, removed=60) with no date filter, the detail view yields
total_added=150, total_removed=70, total_diff=80 and the ordered
top_organisations [A with diff 90, B with diff -10]. -/
theorem two_organisation_scenario :
    (_build_context_dictionary
        ⟨[⟨1, "A", 2024, 1, 15, 100, 10⟩, ⟨2, "B", 2024, 1, 20, 50, 60⟩], [], []⟩
        [1, 2] none).toOption.map
      (fun c => (c.total_added, c.total_removed, c.total_diff, c.top_organisations)) =
      some (some 150, some 70, some 80,
        [⟨(1, "A"), 100, 10, 90⟩, ⟨(2, "B"), 50, 60, -10⟩]) := rfl

/-- C10: when the resolved predicate matches no `LinkAggregate` row but the
organisation-only set does, the earliest date is taken from the fallback while
the grouped query still applies the original predicate, so both chart series
come back as empty lists and no error is raised. -/
theorem chart_empty_when_filtered_predicate_empty (db : Database)
    (organisations : List Nat) (queryset_filter : Q)
    (h1 : filterLinks db queryset_filter = [])
    (h2 : db.linkaggregates.filter (fun r => organisations.contains r.organisation) ≠ []) :
    _fill_chart_context db organisations queryset_filter =
      Except.ok { eventstream_dates := [], eventstream_net_change := [] } := by
  obtain ⟨d, hd⟩ := Option.isSome_iff_exists.mp (earliestFullDate_isSome_of_ne_nil _ h2)
  have hcomb : db.linkaggregates.filter (fun r =>
      queryset_filter.matches r.organisation r.full_date && Date.le d r.full_date) = [] :=
    filter_and_nil db.linkaggregates _ _ h1
  have e1 : earliestFullDate (filterLinks db queryset_filter) = none := by
    rw [h1]; rfl
  unfold _fill_chart_context
  simp only [e1, hd]
  rw [chartFrom_eq, hcomb]
  rfl

/-- Witness for C10: one row on 2024-01-15, date-filtered from 2025 on. -/
theorem chart_empty_when_filtered_predicate_empty_witness :
    _fill_chart_context ⟨[⟨1, "A", 2024, 1, 15, 100, 10⟩], [], []⟩ [1]
        (Q.qand (Q.organisation_in [1]) (Q.full_date_gte ⟨2025, 1, 1⟩)) =
      Except.ok { eventstream_dates := [], eventstream_net_change := [] } :=
  chart_empty_when_filtered_predicate_empty
    ⟨[⟨1, "A", 2024, 1, 15, 100, 10⟩], [], []⟩ [1]
    (Q.qand (Q.organisation_in [1]) (Q.full_date_gte ⟨2025, 1, 1⟩))
    (by decide) (by decide)

end Extlinks
